import Mathlib

/-!
Shallow embedding of the MPL3115A2 pressure/temperature sensor driver
(package mpl3115a2, file mpl3115a2.go), to check the natural-language
specification against the code.

Conventions of the embedding:
- Go bytes are represented as Nat values; where a claim quantifies over
  byte inputs the hypothesis b < 256 carries the byte range.
- Go int8/int16 parameters are represented as Int with explicit range
  hypotheses; the Go conversion byte(x) of a signed integer keeps the low
  8 bits in two's complement, embedded as (x % 256).toNat (Lean's % on Int
  is the nonnegative Euclidean remainder).
- Go integer division on signed values truncates toward zero, embedded as
  Int.tdiv.
- Go float32 values are embedded as rationals.  Every float32 value this
  driver produces is exact: the pressure integer part is below 2 to the 18,
  so integer plus quarter/sixteenth fractions fit well inside float32's
  24-bit significand, and the compensation arithmetic multiplies by the
  power of two 16.
- The i2c bus is an external collaborator.  Writes performed by an
  operation are captured either as the explicit byte list handed to a
  busWrite parameter (the WriteBytes payload) or as BusEvent values in a
  trace; register reads are answered from finite oracle lists in BusInput.
-/

namespace Mpl3115a2

/-! ### Register map (the source's constants) -/

def STATUS : Nat := 0x00

def OUT_PRES_BYTES : Nat := 3

def OUT_TEMP_BYTES : Nat := 2

def PT_DATA_CFG : Nat := 0x13

def BAR_IN_MSB_LSB : Nat := 0x14

def CTRL_REG1 : Nat := 0x26

def OFF_PRES : Nat := 0x2B

def OFF_TEMP : Nat := 0x2C

def OFF_H : Nat := 0x2D

/-- DR_STATUS flag: pressure/altitude or temperature data ready (0x8). -/
def PRES_TEMP_DATA_READY : Nat := 0x8

/-- PressureType signifies which type of pressure measurement is in use. -/
inductive PressureType
  | Barometer
  | Altimeter
deriving DecidableEq, Repr

/-! ### Fixed-point codec -/

/-- Reinterpret the low 16 bits of a Nat as a two's-complement int16
(the Go conversion int16(uint16 value)). -/
def toInt16 (n : Nat) : Int :=
  if n % 65536 < 32768 then (n % 65536 : Int) else (n % 65536 : Int) - 65536

/-- Reinterpret the low 8 bits of a Nat as a two's-complement int8
(the Go conversion int8(byte value)). -/
def toInt8 (n : Nat) : Int :=
  if n % 256 < 128 then (n % 256 : Int) else (n % 256 : Int) - 256

/-- RawPressure keeps raw pressure data received from the sensor. -/
structure RawPressure where
  PRES_MSB : Nat
  PRES_CSB : Nat
  PRES_LSB : Nat
deriving DecidableEq, Repr

/-- ConvertToSignedQ16Dot4: integer part is int16 of (MSB shl 8 or CSB),
fraction is the top 4 bits of LSB.  Used for altimeter mode. -/
def RawPressure.ConvertToSignedQ16Dot4 (v : RawPressure) : Int × Nat :=
  let presFrac := (v.PRES_LSB &&& 0xF0) >>> 4
  let presInt := toInt16 ((v.PRES_MSB <<< 8) ||| v.PRES_CSB)
  (presInt, presFrac)

/-- ConvertToUnsignedQ18Dot2: integer part spreads MSB over bits 17-10,
CSB over bits 9-2 and the top 2 bits of LSB's high nibble over bits 1-0;
the fraction is the low 2 bits of LSB's high nibble.  Used for barometer
mode. -/
def RawPressure.ConvertToUnsignedQ18Dot2 (v : RawPressure) : Nat × Nat :=
  let presFrac := (v.PRES_LSB &&& 0xF0) >>> 4
  let presInt := (v.PRES_MSB <<< 10) ||| (v.PRES_CSB <<< 2) ||| (presFrac >>> 2)
  (presInt, presFrac &&& 0x3)

/-- RawTemperature keeps raw temperature data received from the sensor. -/
structure RawTemperature where
  TEMP_MSB : Nat
  TEMP_LSB : Nat
deriving DecidableEq, Repr

/-- ConvertToSignedQ8Dot4: integer part is int8 of MSB, fraction is the
top 4 bits of LSB. -/
def RawTemperature.ConvertToSignedQ8Dot4 (v : RawTemperature) : Int × Nat :=
  let tempFrac := (v.TEMP_LSB &&& 0xF0) >>> 4
  let tempInt := toInt8 v.TEMP_MSB
  (tempInt, tempFrac)

/-! ### Register-model encoders -/

/-- Oversample ratio should be in range [0..7]; the encoded byte carries it
in bit positions 3-5. -/
def encodeCtrlOverSampleRatio (oversample : Int) : Except String Nat :=
  if oversample < 0 ∨ oversample > 7 then
    Except.error "oversample ratio should be in range [0..7]"
  else
    Except.ok (oversample.toNat <<< 3)

/-- Altimeter-mode bit of CTRL_REG1: 0x80 when altimeter mode is requested. -/
def encodeCtrlAltimeterMode (altimeterMode : Bool) : Except String Nat :=
  if altimeterMode then Except.ok 0x80 else Except.ok 0

/-- Reset bit of CTRL_REG1: 0x4 when a reset is requested. -/
def encodeCtrlResetBit (activateReset : Bool) : Except String Nat :=
  if activateReset then Except.ok 0x4 else Except.ok 0

/-- Active/standby bit of CTRL_REG1: 0x1 when activation is requested. -/
def encodeCtrlActiveStatus (activateSensor : Bool) : Except String Nat :=
  if activateSensor then Except.ok 0x1 else Except.ok 0

/-- Event flags written to PT_DATA_CFG by writeEventMode: 0x1 for a
temperature event, 0x2 for a pressure event, 0x4 whenever either is
requested. -/
def eventModeFlags (temperatureEvent preasureEvent : Bool) : Nat :=
  ((if temperatureEvent then 0x1 else 0) |||
    (if preasureEvent then 0x2 else 0)) |||
    (if temperatureEvent || preasureEvent then 0x4 else 0)

/-! ### Byte conversions for the calibration writes -/

/-- Go's byte(x) on a signed integer: the low 8 bits, two's complement. -/
def intToByte (x : Int) : Nat := (x % 256).toNat

/-- Truncation toward zero of a rational, as Go's conversion from a
floating value to an integer type performs it. -/
def ratTrunc (q : ℚ) : Int := Int.tdiv q.num (q.den : Int)

/-! ### Calibration and configuration operations

Each operation takes the bus's WriteBytes primitive as the function
busWrite from the payload to the write's outcome, so a theorem can speak
both about the exact bytes written and about how the operation maps the
bus outcome to its own result. -/

/-- ModifySeaLevelPressure: halve the pressure (the hardware expects
half-Pascal units) and write the barometric-input register address
followed by the two low-order bytes of the halved value, big-endian. -/
def ModifySeaLevelPressure (busWrite : List Nat → Except String Unit)
    (pressureAtSeeLevel : Nat) : Except String Unit :=
  let p := pressureAtSeeLevel / 2
  match busWrite [BAR_IN_MSB_LSB, (p >>> 8) % 256, p &&& 0xFF] with
  | Except.error e => Except.error e
  | Except.ok _ => Except.ok ()

/-- CompensateAltitude: write the altitude-offset register address and the
shift as a signed byte; no range validation, the bus outcome is returned
as is. -/
def CompensateAltitude (busWrite : List Nat → Except String Unit)
    (shiftM : Int) : Except String Unit :=
  match busWrite [OFF_H, intToByte shiftM] with
  | Except.error e => Except.error e
  | Except.ok _ => Except.ok ()

/-- CompensatePressure: reject shifts outside [-512, 508], else divide by 4
(truncating) and write the offset byte to the pressure-offset register. -/
def CompensatePressure (busWrite : List Nat → Except String Unit)
    (shiftPa : Int) : Except String Unit :=
  if shiftPa > 508 ∨ shiftPa < -512 then
    Except.error "pressure compensation exceed range [-512..+508]"
  else
    match busWrite [OFF_PRES, intToByte (Int.tdiv shiftPa 4)] with
    | Except.error e => Except.error e
    | Except.ok _ => Except.ok ()

/-- CompensateTemperature: reject shifts outside [-8, 127/16], else
multiply by 16 and write the offset byte.  The source writes the byte to
OFF_PRES (0x2B), the pressure-offset register, not to OFF_TEMP. -/
def CompensateTemperature (busWrite : List Nat → Except String Unit)
    (shiftTemp : ℚ) : Except String Unit :=
  if shiftTemp > 127 / 16 ∨ shiftTemp < -8 then
    Except.error "temperature compensation exceed range [-8..+7.9375]"
  else
    match busWrite [OFF_PRES, intToByte (ratTrunc (shiftTemp * 16))] with
    | Except.error e => Except.error e
    | Except.ok _ => Except.ok ()

/-! ### Bus trace model for the measurement path

The measurement protocol's bus activity is recorded as a list of
BusEvent values; register reads are answered from the finite oracles of a
BusInput.  Writes are modelled as succeeding (the claims about the
measurement path describe runs where no bus write fails). -/

/-- One bus operation of the measurement protocol. -/
inductive BusEvent
  | regWrite (reg val : Nat)
  | regRead (reg val : Nat)
  | bytesWrite (bs : List Nat)
  | blockRead (count : Nat) (bs : List Nat)
deriving DecidableEq, Repr

/-- Finite oracles answering the measurement protocol's reads: the
successive results of the STATUS register reads, and the bytes returned
by the 6-byte block read. -/
structure BusInput where
  statusReads : List Nat
  blockBytes : List Nat
deriving DecidableEq, Repr

/-- Outcome of a measurement call over a finite bus oracle. -/
inductive MeasureOutcome (α : Type)
  | ok (val : α)
  | err (msg : String)
  | diverges
deriving DecidableEq, Repr

/-- Reset: encode the reset bit, write it to CTRL_REG1, and discard the
write's outcome (the source ignores the error since the sensor terminates
the i2c connection while rebooting). -/
def Reset (busWriteReg : Nat → Nat → Except String Unit) :
    List BusEvent × Except String Unit :=
  match encodeCtrlResetBit true with
  | Except.error e => ([], Except.error e)
  | Except.ok flags =>
    let _ := busWriteReg CTRL_REG1 flags
    ([BusEvent.regWrite CTRL_REG1 flags], Except.ok ())

/-- Polling loop of measureRaw: sleep, read STATUS, stop at the first
status value with the PRES_TEMP_DATA_READY bit set.  Returns the list of
status values read (in order, the ready one last) and the unread rest of
the oracle; none models the loop still running when the finite oracle is
exhausted — the source's loop has no iteration bound or timeout. -/
def pollConsume : List Nat → Option (List Nat × List Nat)
  | [] => none
  | s :: rest =>
    if s &&& PRES_TEMP_DATA_READY ≠ 0 then
      some ([s], rest)
    else
      match pollConsume rest with
      | some (c, r) => some (s :: c, r)
      | none => none

/-- readRawPressureTemperature: write the target address (STATUS) to
establish the read cursor, then read the 1+3+2 byte block through the
package's utils helper readDataToStruct, which reads byteCount bytes
from the bus and lets binary.Read fill the destination struct field by
field — here STATUS, then the three raw pressure bytes, then the two raw
temperature bytes (the byte order argument is irrelevant for byte-sized
fields).  A transfer that does not deliver the full 6-byte block fails,
and a failed bus read propagates its error. -/
def readRawPressureTemperature (blockBytes : List Nat) :
    Except String (RawPressure × RawTemperature) × List BusEvent :=
  (match blockBytes with
    | [_st, pm, pc, pl, tm, tl] => Except.ok (⟨pm, pc, pl⟩, ⟨tm, tl⟩)
    | _ => Except.error "block read failed",
   [BusEvent.bytesWrite [STATUS],
    BusEvent.blockRead (1 + OUT_PRES_BYTES + OUT_TEMP_BYTES) blockBytes])

/-- measureRaw: configure CTRL_REG1 (mode and oversample bits), enable
both data events in PT_DATA_CFG, set the active bit in CTRL_REG1, poll
DR_STATUS via the STATUS alias until the data-ready bit is set, then read
the raw sample block.  The trace records every bus operation in order. -/
def measureRaw (overampleRatio : Int) (pressureType : PressureType)
    (bus : BusInput) :
    MeasureOutcome (RawPressure × RawTemperature) × List BusEvent :=
  match encodeCtrlAltimeterMode (pressureType == PressureType.Altimeter) with
  | Except.error e => (MeasureOutcome.err e, [])
  | Except.ok modeFlags =>
    match encodeCtrlOverSampleRatio overampleRatio with
    | Except.error e => (MeasureOutcome.err e, [])
    | Except.ok osrFlags =>
      let flags := modeFlags ||| osrFlags
      let ev1 := BusEvent.regWrite CTRL_REG1 flags
      let ev2 := BusEvent.regWrite PT_DATA_CFG (eventModeFlags true true)
      match encodeCtrlActiveStatus true with
      | Except.error e => (MeasureOutcome.err e, [ev1, ev2])
      | Except.ok activeBit =>
        let ev3 := BusEvent.regWrite CTRL_REG1 (flags ||| activeBit)
        match pollConsume bus.statusReads with
        | none =>
          (MeasureOutcome.diverges,
            ev1 :: ev2 :: ev3 ::
              bus.statusReads.map (fun s => BusEvent.regRead STATUS s))
        | some (consumed, _) =>
          let pollEvs := consumed.map (fun s => BusEvent.regRead STATUS s)
          match readRawPressureTemperature bus.blockBytes with
          | (Except.error e, readEvs) =>
            (MeasureOutcome.err e, ev1 :: ev2 :: ev3 :: (pollEvs ++ readEvs))
          | (Except.ok (up, ut), readEvs) =>
            (MeasureOutcome.ok (up, ut),
              ev1 :: ev2 :: ev3 :: (pollEvs ++ readEvs))

/-- MeasurePressure: measureRaw in barometer mode, then Q18.2 pressure and
Q8.4 temperature reassembly (float32 embedded as exact rationals). -/
def MeasurePressure (oversampleRation : Int) (bus : BusInput) :
    MeasureOutcome (ℚ × ℚ) × List BusEvent :=
  match measureRaw oversampleRation PressureType.Barometer bus with
  | (MeasureOutcome.ok (up, ut), tr) =>
    let pres := up.ConvertToUnsignedQ18Dot2
    let temp := ut.ConvertToSignedQ8Dot4
    (MeasureOutcome.ok
      ((pres.1 : ℚ) + (pres.2 : ℚ) / 4, (temp.1 : ℚ) + (temp.2 : ℚ) / 16), tr)
  | (MeasureOutcome.err e, tr) => (MeasureOutcome.err e, tr)
  | (MeasureOutcome.diverges, tr) => (MeasureOutcome.diverges, tr)

/-- MeasureAltitude: measureRaw in altimeter mode, then Q16.4 altitude and
Q8.4 temperature reassembly (float32 embedded as exact rationals). -/
def MeasureAltitude (oversampleRatio : Int) (bus : BusInput) :
    MeasureOutcome (ℚ × ℚ) × List BusEvent :=
  match measureRaw oversampleRatio PressureType.Altimeter bus with
  | (MeasureOutcome.ok (up, ut), tr) =>
    let alt := up.ConvertToSignedQ16Dot4
    let temp := ut.ConvertToSignedQ8Dot4
    (MeasureOutcome.ok
      ((alt.1 : ℚ) + (alt.2 : ℚ) / 16, (temp.1 : ℚ) + (temp.2 : ℚ) / 16), tr)
  | (MeasureOutcome.err e, tr) => (MeasureOutcome.err e, tr)
  | (MeasureOutcome.diverges, tr) => (MeasureOutcome.diverges, tr)

/-- Register writes of a trace: the (register, value) pairs of its
regWrite events, in order. -/
def regWritesOf (tr : List BusEvent) : List (Nat × Nat) :=
  tr.filterMap fun e =>
    match e with
    | BusEvent.regWrite r v => some (r, v)
    | _ => none

/-- Status reads of a trace: how many regRead events it holds. -/
def statusReadCount (tr : List BusEvent) : Nat :=
  (tr.filterMap fun e =>
    match e with
    | BusEvent.regRead r v => some (r, v)
    | _ => none).length

/-! ### Helper lemmas -/

/-- Folding the identity error-propagation match of the Go pattern
(if err != nil return err; return nil) back into the bus outcome. -/
theorem except_match_id (x : Except String Unit) :
    (match x with
      | Except.error e => Except.error e
      | Except.ok _ => Except.ok ()) = x := by
  cases x <;> rfl

/-- A shifted value or-ed with a low part below the shift width adds. -/
theorem lor_high_low : ∀ (k a b : Nat), b < 2 ^ k →
    (a <<< k) ||| b = a <<< k + b := by
  intro k
  induction k with
  | zero =>
    intro a b hb
    interval_cases b
    simp
  | succ k ih =>
    intro a b hb
    have h1 : a <<< (k + 1) = 2 * (a <<< k) := by
      simp [Nat.shiftLeft_eq, Nat.pow_succ]
      ring
    have h2 : 2 * (a <<< k) = Nat.bit false (a <<< k) := by
      simp [Nat.bit]
    calc (a <<< (k + 1)) ||| b
        = (Nat.bit false (a <<< k)) ||| (Nat.bit (Nat.bodd b) (Nat.div2 b)) := by
          rw [h1, h2, Nat.bit_decomp b]
      _ = Nat.bit (false || Nat.bodd b) ((a <<< k) ||| Nat.div2 b) := by
          rw [Nat.lor_bit]
      _ = Nat.bit (Nat.bodd b) ((a <<< k) + Nat.div2 b) := by
          rw [Bool.false_or, ih a (Nat.div2 b) (by
            rw [Nat.div2_val]
            have hp : 2 ^ (k + 1) = 2 * 2 ^ k := by rw [Nat.pow_succ]; ring
            omega)]
      _ = a <<< (k + 1) + b := by
          simp [Nat.bit, h1]
          cases hob : Nat.bodd b <;>
            simp [Nat.div2_val] <;>
            · have := Nat.bodd_add_div2 b
              rw [hob] at this
              simp at this
              omega

set_option maxRecDepth 8192 in
/-- Masking a byte's high nibble before shifting it down by 4 changes
nothing for byte-range inputs. -/
theorem mask_high_nibble : ∀ b : Nat, b < 256 →
    (b &&& 0xF0) >>> 4 = b >>> 4 := by
  decide

/-! ### Claim theorems -/

/-- C1: CompensateTemperature fails with the range error exactly outside
[-8, 127/16] — in particular CompensateTemperature(8) fails before any bus
access — and for the in-range shift 127/16 (7.9375) it multiplies by 16
and writes the single offset byte 127; but it addresses that write to
OFF_PRES (0x2B), the pressure-offset register, not to the
temperature-offset register OFF_TEMP (0x2C) that the claim names. -/
theorem compensateTemperature_wrong_register :
    ∀ busWrite : List Nat → Except String Unit,
    CompensateTemperature busWrite 8 =
      Except.error "temperature compensation exceed range [-8..+7.9375]" ∧
    CompensateTemperature busWrite (127 / 16) = busWrite [OFF_PRES, 127] ∧
    OFF_PRES = 0x2B ∧ OFF_TEMP = 0x2C ∧ OFF_PRES ≠ OFF_TEMP := by
  intro busWrite
  refine ⟨?_, ?_, rfl, rfl, by decide⟩
  · rw [CompensateTemperature, if_pos (by norm_num)]
  · rw [CompensateTemperature, if_neg (by norm_num)]
    have h16 : ((127 : ℚ) / 16) * 16 = 127 := by norm_num
    have htr : ratTrunc (((127 : ℚ) / 16) * 16) = 127 := by
      rw [h16, ratTrunc]
      simp
    rw [htr]
    show (match busWrite [OFF_PRES, intToByte 127] with
      | Except.error e => Except.error e
      | Except.ok _ => Except.ok ()) = _
    rw [except_match_id]
    rfl

/-- C3: CompensatePressure fails with the range error exactly when the
shift is outside [-512, 508]; in range it divides the shift by 4
(truncating toward zero) and writes that single byte to the
pressure-offset register OFF_PRES (0x2B); concretely, 508 writes byte
0x7F, 509 fails, and -512 writes byte 0x80 (-128 as a signed byte). -/
theorem compensatePressure_range_and_bytes :
    ∀ (busWrite : List Nat → Except String Unit) (s : Int),
    ((508 < s ∨ s < -512) →
      CompensatePressure busWrite s =
        Except.error "pressure compensation exceed range [-512..+508]") ∧
    (-512 ≤ s → s ≤ 508 →
      CompensatePressure busWrite s =
        busWrite [OFF_PRES, intToByte (Int.tdiv s 4)]) ∧
    CompensatePressure busWrite 508 = busWrite [OFF_PRES, 0x7F] ∧
    CompensatePressure busWrite 509 =
      Except.error "pressure compensation exceed range [-512..+508]" ∧
    CompensatePressure busWrite (-512) = busWrite [OFF_PRES, 0x80] := by
  intro busWrite s
  have hgen : ∀ t : Int, -512 ≤ t → t ≤ 508 →
      CompensatePressure busWrite t =
        busWrite [OFF_PRES, intToByte (Int.tdiv t 4)] := by
    intro t h1 h2
    rw [CompensatePressure, if_neg (by omega), except_match_id]
  refine ⟨?_, hgen s, ?_, ?_, ?_⟩
  · intro h
    rw [CompensatePressure, if_pos (by omega)]
  · have := hgen 508 (by omega) (by omega)
    rwa [show intToByte (Int.tdiv 508 4) = 0x7F by decide] at this
  · rw [CompensatePressure, if_pos (by omega)]
  · have := hgen (-512) (by omega) (by omega)
    rwa [show intToByte (Int.tdiv (-512) 4) = 0x80 by decide] at this

/-- C4: the oversample encoder succeeds exactly on [0, 7]: every in-range
input encodes to the ratio placed in bit positions 3-5, extracting those
bits recovers the ratio, and every out-of-range input fails with the
out-of-range error; in particular the inputs 8 and -1 fail, and a
measurement call with such a ratio returns that validation error with an
empty bus trace (no bus access happened). -/
theorem encodeCtrlOverSampleRatio_spec :
    ∀ (r : Int) (m : PressureType) (bus : BusInput),
    (0 ≤ r → r ≤ 7 →
      encodeCtrlOverSampleRatio r = Except.ok (r.toNat <<< 3) ∧
      ((r.toNat <<< 3) >>> 3) &&& 0x7 = r.toNat) ∧
    ((r < 0 ∨ r > 7) →
      encodeCtrlOverSampleRatio r =
        Except.error "oversample ratio should be in range [0..7]") ∧
    encodeCtrlOverSampleRatio 8 =
      Except.error "oversample ratio should be in range [0..7]" ∧
    encodeCtrlOverSampleRatio (-1) =
      Except.error "oversample ratio should be in range [0..7]" ∧
    measureRaw 8 m bus =
      (MeasureOutcome.err "oversample ratio should be in range [0..7]", []) ∧
    measureRaw (-1) m bus =
      (MeasureOutcome.err "oversample ratio should be in range [0..7]", []) := by
  intro r m bus
  refine ⟨?_, ?_, rfl, rfl, ?_, ?_⟩
  · intro h0 h7
    refine ⟨by rw [encodeCtrlOverSampleRatio, if_neg (by omega)], ?_⟩
    have hlt : r.toNat ≤ 7 := by omega
    revert hlt
    have : ∀ n : Nat, n ≤ 7 → ((n <<< 3) >>> 3) &&& 0x7 = n := by decide
    exact this r.toNat
  · intro h
    rw [encodeCtrlOverSampleRatio, if_pos h]
  · cases m <;> rfl
  · cases m <;> rfl

/-- C9: Reset writes the reset bit 0x04 to CTRL_REG1 and returns success
whatever the outcome of that bus write is: the write's communication
failure is suppressed, never surfaced. -/
theorem reset_suppresses_bus_error :
    ∀ busWriteReg : Nat → Nat → Except String Unit,
    Reset busWriteReg =
      ([BusEvent.regWrite CTRL_REG1 0x4], Except.ok ()) := by
  intro busWriteReg
  rfl

/-- C10: CompensateAltitude performs no range validation: for every
signed-byte shift it writes exactly the two bytes OFF_H (0x2D) and the
shift as a signed byte, and its result is the bus write's outcome
unchanged — it fails only when that write fails, with the same error. -/
theorem compensateAltitude_no_validation :
    ∀ (busWrite : List Nat → Except String Unit) (shiftM : Int),
    -128 ≤ shiftM → shiftM ≤ 127 →
    CompensateAltitude busWrite shiftM = busWrite [OFF_H, intToByte shiftM] := by
  intro busWrite shiftM _ _
  rw [CompensateAltitude, except_match_id]

/-- C10 witness: at the concrete shift 5, against a bus whose write fails,
CompensateAltitude returns exactly that bus error. -/
theorem compensateAltitude_no_validation_witness :
    CompensateAltitude (fun _ => Except.error "bus down") 5 =
      Except.error "bus down" := by
  have h := compensateAltitude_no_validation
    (fun _ => Except.error "bus down") 5 (by norm_num) (by norm_num)
  exact h

/-- C7: for all 3-byte inputs the unsigned Q18.2 decoder's integer part is
in [0, 262143] and its fraction in [0, 3], and the signed Q16.4 decoder
returns the two's-complement reinterpretation of the big-endian 16-bit
value byte0:byte1 as integer and the top 4 bits of byte2 as fraction;
both are total Lean functions, hence deterministic on every byte
pattern. -/
theorem convert_total_spec :
    ∀ b0 b1 b2 : Nat, b0 < 256 → b1 < 256 → b2 < 256 →
    (RawPressure.ConvertToUnsignedQ18Dot2 ⟨b0, b1, b2⟩).1 ≤ 262143 ∧
    (RawPressure.ConvertToUnsignedQ18Dot2 ⟨b0, b1, b2⟩).2 ≤ 3 ∧
    (RawPressure.ConvertToSignedQ16Dot4 ⟨b0, b1, b2⟩).1 =
      toInt16 (b0 * 256 + b1) ∧
    (RawPressure.ConvertToSignedQ16Dot4 ⟨b0, b1, b2⟩).2 = b2 >>> 4 := by
  intro b0 b1 b2 h0 h1 h2
  refine ⟨?_, ?_, ?_, ?_⟩
  · show (b0 <<< 10) ||| (b1 <<< 2) |||
      (((b2 &&& 0xF0) >>> 4) >>> 2) ≤ 262143
    have hb0 : b0 <<< 10 < 2 ^ 18 := by
      rw [Nat.shiftLeft_eq]
      norm_num
      omega
    have hb1 : b1 <<< 2 < 2 ^ 18 := by
      rw [Nat.shiftLeft_eq]
      norm_num
      omega
    have hfr : ((b2 &&& 0xF0) >>> 4) >>> 2 < 2 ^ 18 := by
      have hm : b2 &&& 0xF0 ≤ 0xF0 := Nat.and_le_right
      rw [Nat.shiftRight_eq_div_pow, Nat.shiftRight_eq_div_pow]
      have : b2 &&& 0xF0 ≤ 240 := hm
      omega
    have := Nat.or_lt_two_pow (Nat.or_lt_two_pow hb0 hb1) hfr
    omega
  · show ((b2 &&& 0xF0) >>> 4) &&& 0x3 ≤ 3
    exact Nat.and_le_right
  · show toInt16 ((b0 <<< 8) ||| b1) = toInt16 (b0 * 256 + b1)
    rw [lor_high_low 8 b0 b1 (by omega), Nat.shiftLeft_eq]
  · show (b2 &&& 0xF0) >>> 4 = b2 >>> 4
    exact mask_high_nibble b2 h2

/-- C7 witness: the claim's bounds and equalities at the concrete raw
bytes 0x01, 0x90, 0x30. -/
theorem convert_total_spec_witness :
    (RawPressure.ConvertToUnsignedQ18Dot2 ⟨0x01, 0x90, 0x30⟩).1 ≤ 262143 ∧
    (RawPressure.ConvertToUnsignedQ18Dot2 ⟨0x01, 0x90, 0x30⟩).2 ≤ 3 ∧
    (RawPressure.ConvertToSignedQ16Dot4 ⟨0x01, 0x90, 0x30⟩).1 =
      toInt16 (0x01 * 256 + 0x90) ∧
    (RawPressure.ConvertToSignedQ16Dot4 ⟨0x01, 0x90, 0x30⟩).2 = 0x30 >>> 4 :=
  convert_total_spec 0x01 0x90 0x30 (by norm_num) (by norm_num) (by norm_num)

/-- C8: ModifySeaLevelPressure halves its input and writes three bytes,
the barometric-input register address followed by the halved value as two
big-endian bytes (its value modulo 2 to the 16); concretely, the input
101326 writes the bytes 0x14, 0xC5, 0xE7 since 101326/2 = 50663 =
0xC5E7. -/
theorem modifySeaLevelPressure_spec :
    ∀ (busWrite : List Nat → Except String Unit) (p : Nat),
    p < 4294967296 →
    ModifySeaLevelPressure busWrite p =
      busWrite [BAR_IN_MSB_LSB, p / 2 / 256 % 256, p / 2 % 256] ∧
    p / 2 / 256 % 256 * 256 + p / 2 % 256 = p / 2 % 65536 ∧
    ModifySeaLevelPressure busWrite 101326 = busWrite [0x14, 0xC5, 0xE7] := by
  intro busWrite p _
  have hgen : ∀ q : Nat, ModifySeaLevelPressure busWrite q =
      busWrite [BAR_IN_MSB_LSB, q / 2 / 256 % 256, q / 2 % 256] := by
    intro q
    rw [ModifySeaLevelPressure]
    have hhi : (q / 2) >>> 8 % 256 = q / 2 / 256 % 256 := by
      rw [Nat.shiftRight_eq_div_pow]
    have hlo : (q / 2) &&& 0xFF = q / 2 % 256 := by
      have := Nat.and_pow_two_sub_one_eq_mod (q / 2) 8
      norm_num at this
      exact this
    rw [hhi, hlo, except_match_id]
  refine ⟨hgen p, by omega, ?_⟩
  exact hgen 101326

/-- C8 witness: the theorem applied at the input 101326 against a bus that
accepts every write. -/
theorem modifySeaLevelPressure_spec_witness :
    ModifySeaLevelPressure (fun _ => Except.ok ()) 101326 =
      (fun _ : List Nat => (Except.ok () : Except String Unit))
        [0x14, 0xC5, 0xE7] :=
  (modifySeaLevelPressure_spec (fun _ => Except.ok ()) 101326 (by norm_num)).2.2

/-! ### Trace lemmas for the measurement protocol -/

/-- Characterization of measureRaw under a valid configuration: a valid
oversample ratio and either mode reduce the encoders away, leaving the
three configuration writes followed by the polling and reading phases. -/
theorem measureRaw_valid_eq (r : Int) (m : PressureType) (bus : BusInput)
    (h0 : 0 ≤ r) (h7 : r ≤ 7) :
    measureRaw r m bus =
      (let flags := (if m = PressureType.Altimeter then 0x80 else 0x00) |||
        r.toNat <<< 3
       let pre := [BusEvent.regWrite CTRL_REG1 flags,
         BusEvent.regWrite PT_DATA_CFG 0x07,
         BusEvent.regWrite CTRL_REG1 (flags ||| 0x01)]
       match pollConsume bus.statusReads with
       | none =>
         (MeasureOutcome.diverges,
           pre ++ bus.statusReads.map (fun s => BusEvent.regRead STATUS s))
       | some (c, _) =>
         match readRawPressureTemperature bus.blockBytes with
         | (Except.error e, readEvs) =>
           (MeasureOutcome.err e,
             pre ++ (c.map (fun s => BusEvent.regRead STATUS s) ++ readEvs))
         | (Except.ok p, readEvs) =>
           (MeasureOutcome.ok p,
             pre ++ (c.map (fun s => BusEvent.regRead STATUS s) ++ readEvs))) := by
  have hcond : ¬(r < 0 ∨ r > 7) := by omega
  cases m <;>
    simp only [measureRaw, encodeCtrlAltimeterMode, encodeCtrlOverSampleRatio,
      encodeCtrlActiveStatus, eventModeFlags, hcond, if_false, if_true,
      beq_iff_eq, reduceCtorEq, reduceIte] <;>
    rcases hpc : pollConsume bus.statusReads with _ | ⟨c, rest⟩ <;>
    simp only [] <;>
    try rfl
  all_goals {
    rcases hrr : readRawPressureTemperature bus.blockBytes with ⟨res, readEvs⟩
    cases res <;> simp [List.cons_append]
  }

/-- Event part of the raw block read: an address write then the 6-byte
block read, whatever the block contents. -/
theorem readRaw_snd (bs : List Nat) :
    (readRawPressureTemperature bs).2 =
      [BusEvent.bytesWrite [STATUS],
       BusEvent.blockRead (1 + OUT_PRES_BYTES + OUT_TEMP_BYTES) bs] := rfl

/-- Status-read events contribute no register writes. -/
theorem regWritesOf_map_regRead (l : List Nat) :
    regWritesOf (l.map fun s => BusEvent.regRead STATUS s) = [] := by
  induction l with
  | nil => rfl
  | cons a rest ih => simp [regWritesOf, List.filterMap_cons] at ih ⊢

/-- Each status-read event counts as one status read. -/
theorem statusReadCount_map_regRead (l : List Nat) :
    statusReadCount (l.map fun s => BusEvent.regRead STATUS s) = l.length := by
  induction l with
  | nil => rfl
  | cons a rest ih => simp [statusReadCount, List.filterMap_cons] at ih ⊢

/-- When no status value has the ready bit, the polling loop consumes the
whole oracle without stopping. -/
theorem pollConsume_all_not_ready : ∀ l : List Nat,
    (∀ x ∈ l, x &&& PRES_TEMP_DATA_READY = 0) → pollConsume l = none := by
  intro l
  induction l with
  | nil => intro _; rfl
  | cons s rest ih =>
    intro h
    have hs : s &&& PRES_TEMP_DATA_READY = 0 := h s (by simp)
    rw [pollConsume, if_neg (by simp [hs]), ih (fun x hx => h x (by simp [hx]))]

/-- The polling loop stops exactly at the first status value with the
ready bit set, having read the whole not-ready prefix plus that value. -/
theorem pollConsume_first : ∀ (l1 : List Nat) (s : Nat) (l2 : List Nat),
    (∀ x ∈ l1, x &&& PRES_TEMP_DATA_READY = 0) →
    s &&& PRES_TEMP_DATA_READY ≠ 0 →
    pollConsume (l1 ++ s :: l2) = some (l1 ++ [s], l2) := by
  intro l1
  induction l1 with
  | nil => intro s l2 _ hs; simp [pollConsume, hs]
  | cons a rest ih =>
    intro s l2 h hs
    have ha : a &&& PRES_TEMP_DATA_READY = 0 := h a (by simp)
    rw [List.cons_append, pollConsume, if_neg (by simp [ha]),
      ih s l2 (fun x hx => h x (by simp [hx])) hs]
    rfl

/-- Register writes distribute over trace concatenation. -/
theorem regWritesOf_append (l1 l2 : List BusEvent) :
    regWritesOf (l1 ++ l2) = regWritesOf l1 ++ regWritesOf l2 := by
  simp [regWritesOf]

/-- Status-read counts distribute over trace concatenation. -/
theorem statusReadCount_append (l1 l2 : List BusEvent) :
    statusReadCount (l1 ++ l2) = statusReadCount l1 + statusReadCount l2 := by
  simp [statusReadCount]

/-- C5: every measurement call with a valid oversample ratio and either
pressure mode performs exactly three register writes, in order: CTRL_REG1
gets the mode bit (0x80 exactly for Altimeter) or-ed with the ratio
shifted to bits 3-5; PT_DATA_CFG gets 0x07 (0x01 for the temperature
event, 0x02 for the pressure event, 0x04 since one is requested); and
CTRL_REG1 gets the first value or-ed with the active bit 0x01. -/
theorem measureRaw_three_config_writes :
    ∀ (r : Int) (m : PressureType) (bus : BusInput), 0 ≤ r → r ≤ 7 →
    regWritesOf (measureRaw r m bus).2 =
      [(CTRL_REG1,
         (if m = PressureType.Altimeter then 0x80 else 0x00) ||| r.toNat <<< 3),
       (PT_DATA_CFG, 0x07),
       (CTRL_REG1,
         ((if m = PressureType.Altimeter then 0x80 else 0x00) |||
           r.toNat <<< 3) ||| 0x01)] ∧
    eventModeFlags true true = 0x01 ||| 0x02 ||| 0x04 := by
  intro r m bus h0 h7
  refine ⟨?_, rfl⟩
  rw [measureRaw_valid_eq r m bus h0 h7]
  rcases hpc : pollConsume bus.statusReads with _ | ⟨c, rest⟩
  · rw [regWritesOf_append, regWritesOf_map_regRead bus.statusReads]
    simp [regWritesOf, List.filterMap_cons]
  · rcases hrr : readRawPressureTemperature bus.blockBytes with ⟨res, readEvs⟩
    have hevs : readEvs =
        [BusEvent.bytesWrite [STATUS],
         BusEvent.blockRead (1 + OUT_PRES_BYTES + OUT_TEMP_BYTES)
           bus.blockBytes] := by
      have h := readRaw_snd bus.blockBytes
      rw [hrr] at h
      exact h
    cases res <;>
      rw [regWritesOf_append, regWritesOf_append,
        regWritesOf_map_regRead c, hevs] <;>
      simp [regWritesOf, List.filterMap_cons]

/-- C5 witness: the three configuration writes at ratio 0 in barometer
mode against the empty oracle. -/
theorem measureRaw_three_config_writes_witness :
    regWritesOf (measureRaw 0 PressureType.Barometer ⟨[], []⟩).2 =
      [(CTRL_REG1,
         (if PressureType.Barometer = PressureType.Altimeter
           then 0x80 else 0x00) ||| (0 : Int).toNat <<< 3),
       (PT_DATA_CFG, 0x07),
       (CTRL_REG1,
         ((if PressureType.Barometer = PressureType.Altimeter
           then 0x80 else 0x00) ||| (0 : Int).toNat <<< 3) ||| 0x01)] ∧
    eventModeFlags true true = 0x01 ||| 0x02 ||| 0x04 :=
  measureRaw_three_config_writes 0 PressureType.Barometer ⟨[], []⟩
    (by norm_num) (by norm_num)

/-- C6: the polling phase stops exactly at the first status read whose
value has the data-ready bit 0x08 set — a not-ready prefix of length k is
followed by exactly k+1 status reads in the trace — and when no status
read ever has the bit set the loop exhausts any finite oracle without
stopping (the measurement diverges: there is no iteration bound or
timeout). -/
theorem measureRaw_polling_spec :
    ∀ (r : Int) (m : PressureType) (block : List Nat), 0 ≤ r → r ≤ 7 →
    (∀ (l1 : List Nat) (s : Nat) (l2 : List Nat),
      (∀ x ∈ l1, x &&& PRES_TEMP_DATA_READY = 0) →
      s &&& PRES_TEMP_DATA_READY ≠ 0 →
      statusReadCount (measureRaw r m ⟨l1 ++ s :: l2, block⟩).2 =
        l1.length + 1) ∧
    (∀ seq : List Nat, (∀ x ∈ seq, x &&& PRES_TEMP_DATA_READY = 0) →
      (measureRaw r m ⟨seq, block⟩).1 = MeasureOutcome.diverges) := by
  intro r m block h0 h7
  constructor
  · intro l1 s l2 hl hs
    rw [measureRaw_valid_eq r m ⟨l1 ++ s :: l2, block⟩ h0 h7]
    rw [show (⟨l1 ++ s :: l2, block⟩ : BusInput).statusReads = l1 ++ s :: l2
      from rfl, pollConsume_first l1 s l2 hl hs]
    rw [show (⟨l1 ++ s :: l2, block⟩ : BusInput).blockBytes = block from rfl]
    rcases hrr : readRawPressureTemperature block with ⟨res, readEvs⟩
    have hevs : readEvs =
        [BusEvent.bytesWrite [STATUS],
         BusEvent.blockRead (1 + OUT_PRES_BYTES + OUT_TEMP_BYTES) block] := by
      have h := readRaw_snd block
      rw [hrr] at h
      exact h
    cases res <;>
      simp [statusReadCount_append, statusReadCount_map_regRead, hevs,
        statusReadCount, List.filterMap_cons, List.length_append]
  · intro seq hseq
    rw [measureRaw_valid_eq r m ⟨seq, block⟩ h0 h7]
    rw [show (⟨seq, block⟩ : BusInput).statusReads = seq from rfl,
      pollConsume_all_not_ready seq hseq]

/-- C6 witness: with statuses 0x00 then 0x0C exactly two reads happen, and
with the all-not-ready oracle 0x00, 0x00 the measurement diverges. -/
theorem measureRaw_polling_spec_witness :
    statusReadCount (measureRaw 0 PressureType.Barometer
      ⟨[0x00] ++ 0x0C :: [], []⟩).2 = [0x00].length + 1 ∧
    (measureRaw 0 PressureType.Barometer ⟨[0x00, 0x00], []⟩).1 =
      MeasureOutcome.diverges := by
  have h := measureRaw_polling_spec 0 PressureType.Barometer []
    (by norm_num) (by norm_num)
  exact ⟨h.1 [0x00] 0x0C [] (by decide) (by decide),
    h.2 [0x00, 0x00] (by decide)⟩

/-- C2: in barometer mode, with successive status reads 0x00, 0x00, 0x0C
and the raw block 0x0C, 0x01, 0x90, 0x30, 0x16, 0x40, MeasurePressure
performs exactly three status polls and returns the pressure
(0x01 shl 10 or 0x90 shl 2 or 0x30 shr 6) + ((0x30 shr 4) and 0x3)/4 and
the temperature 22 + 4/16 = 22.25. -/
theorem measurePressure_end_to_end :
    ∀ r : Int, 0 ≤ r → r ≤ 7 →
    (MeasurePressure r ⟨[0x00, 0x00, 0x0C],
        [0x0C, 0x01, 0x90, 0x30, 0x16, 0x40]⟩).1 =
      MeasureOutcome.ok
        ((((0x01 <<< 10) ||| (0x90 <<< 2) ||| (0x30 >>> 6) : Nat) : ℚ) +
          (((0x30 >>> 4) &&& 0x3 : Nat) : ℚ) / 4,
         22 + 4 / 16) ∧
    statusReadCount (MeasurePressure r ⟨[0x00, 0x00, 0x0C],
        [0x0C, 0x01, 0x90, 0x30, 0x16, 0x40]⟩).2 = 3 ∧
    (22 + 4 / 16 : ℚ) = 22.25 := by
  intro r h0 h7
  have hraw : measureRaw r PressureType.Barometer
      ⟨[0x00, 0x00, 0x0C], [0x0C, 0x01, 0x90, 0x30, 0x16, 0x40]⟩ =
      (MeasureOutcome.ok (⟨0x01, 0x90, 0x30⟩, ⟨0x16, 0x40⟩),
       [BusEvent.regWrite CTRL_REG1 (0x00 ||| r.toNat <<< 3),
        BusEvent.regWrite PT_DATA_CFG 0x07,
        BusEvent.regWrite CTRL_REG1 ((0x00 ||| r.toNat <<< 3) ||| 0x01),
        BusEvent.regRead STATUS 0x00, BusEvent.regRead STATUS 0x00,
        BusEvent.regRead STATUS 0x0C, BusEvent.bytesWrite [STATUS],
        BusEvent.blockRead 6 [0x0C, 0x01, 0x90, 0x30, 0x16, 0x40]]) := by
    rw [measureRaw_valid_eq r PressureType.Barometer _ h0 h7]
    rfl
  refine ⟨?_, ?_, by norm_num⟩
  · rw [MeasurePressure, hraw]
    show MeasureOutcome.ok _ = _
    have hq : (RawPressure.ConvertToUnsignedQ18Dot2 ⟨0x01, 0x90, 0x30⟩) =
        (1600, 3) := rfl
    have ht : (RawTemperature.ConvertToSignedQ8Dot4 ⟨0x16, 0x40⟩) =
        (22, 4) := rfl
    rw [hq, ht]
    have h1 : (0x01 <<< 10 ||| 0x90 <<< 2 ||| 0x30 >>> 6 : Nat) = 1600 := by
      decide
    have h2 : (0x30 >>> 4 &&& 0x3 : Nat) = 3 := by decide
    rw [h1, h2]
    norm_num
  · rw [MeasurePressure, hraw]
    show statusReadCount
      [BusEvent.regWrite CTRL_REG1 (0x00 ||| r.toNat <<< 3),
       BusEvent.regWrite PT_DATA_CFG 0x07,
       BusEvent.regWrite CTRL_REG1 ((0x00 ||| r.toNat <<< 3) ||| 0x01),
       BusEvent.regRead STATUS 0x00, BusEvent.regRead STATUS 0x00,
       BusEvent.regRead STATUS 0x0C, BusEvent.bytesWrite [STATUS],
       BusEvent.blockRead 6 [0x0C, 0x01, 0x90, 0x30, 0x16, 0x40]] = 3
    simp [statusReadCount, List.filterMap_cons]

/-- C2 witness: the end-to-end run at the concrete oversample ratio 0. -/
theorem measurePressure_end_to_end_witness :
    (MeasurePressure 0 ⟨[0x00, 0x00, 0x0C],
        [0x0C, 0x01, 0x90, 0x30, 0x16, 0x40]⟩).1 =
      MeasureOutcome.ok
        ((((0x01 <<< 10) ||| (0x90 <<< 2) ||| (0x30 >>> 6) : Nat) : ℚ) +
          (((0x30 >>> 4) &&& 0x3 : Nat) : ℚ) / 4,
         22 + 4 / 16) ∧
    statusReadCount (MeasurePressure 0 ⟨[0x00, 0x00, 0x0C],
        [0x0C, 0x01, 0x90, 0x30, 0x16, 0x40]⟩).2 = 3 ∧
    (22 + 4 / 16 : ℚ) = 22.25 :=
  measurePressure_end_to_end 0 (by norm_num) (by norm_num)

end Mpl3115a2
